import Mathlib

/-!
Shallow embedding of `src/timer.hpp` (the `Timer` class template of the
Raspberry-5 real-time timer repository).

Modelling conventions:

* C++ `double` values (the `DurationType = duration<double>` default used by
  the repository, elapsed times `_dt`, the statistics accumulator) are
  embedded as exact rationals `ℚ`.  The claims verified here are structural
  (which field is updated when, by which formula); IEEE-754 rounding is not
  part of any claim.
* `_min` is initialised to `INFINITY` in the source; we embed the `double`
  line `_min : WithTop ℚ` with `⊤` playing the role of `+INFINITY`
  (`std::min(INFINITY, x) = x` for finite `x`, exactly as `Min.min ⊤ ↑x = ↑x`).
* `_sd` always holds `sqrt` of a nonnegative quantity and is only ever read
  back through `pow(_sd, 2)`, so the embedding tracks its square `sdSq`
  (`_sd = Real.sqrt sdSq`, and `_sd = 0 ↔ sdSq = 0`).
* The two `#ifdef ENABLE_RT_SCHEDULER` compilation variants of
  `start`/`wait` become the two constructors of `Variant`
  (`absClock` = `clock_nanosleep(TIMER_ABSTIME)` build,
  `intervalSignal` = `setitimer`/`nanosleep` fallback build); the
  `EnableStats` template parameter becomes the `enableStats : Bool` argument.
* The OS interaction of one `wait` call is summarised by one `CycleInput`:
  the wall-clock snapshots `pre_sleep` and `now` taken inside `wait`, and
  whether the blocking sleep was interrupted by a signal
  (`clock_nanosleep(...) != 0` resp. `nanosleep(...) != 0`).
* `timespec` fields are embedded as mathematical integers.  `tv_nsec` values
  occurring at runtime are nonnegative (`clock_gettime` postcondition), where
  the C `/` and `%` on `long` coincide with Lean's Euclidean `/` and `%`.
* C++ exceptions (`throw TimerError(...)`) are embedded as
  `Except String _`; the `TimerError` message string is carried verbatim.
-/

/-- The per-cycle soft error codes of `Timer::TimerErrorType`. -/
inductive TimerErrorType where
  | TIMER_OK
  | TIMER_ERR_SIGNAL_LATE
  | TIMER_ERR_MAX_WAIT_EXCEEDED
  | TIMER_ERR_INTERRUPTED
deriving DecidableEq

/-- The two `#ifdef ENABLE_RT_SCHEDULER` compilation variants of the timer. -/
inductive Variant where
  | absClock
  | intervalSignal
deriving DecidableEq

/-- `struct timespec`, with mathematical integers for both fields. -/
structure TimeSpec where
  tv_sec : ℤ
  tv_nsec : ℤ
deriving DecidableEq

/-- `#define NSEC_PER_SEC 1000000000ULL`. -/
def NSEC_PER_SEC : ℤ := 1000000000

/-- Total nanosecond value denoted by a `timespec`. -/
def TimeSpec.toNanos (t : TimeSpec) : ℤ :=
  t.tv_sec * NSEC_PER_SEC + t.tv_nsec

/-- `Timer::timespec_add_interval`: advance a `timespec` deadline by the
interval's nanosecond count `dns` and renormalise.  Source:
`t->tv_nsec += dns; t->tv_sec += t->tv_nsec / NSEC_PER_SEC;
t->tv_nsec %= NSEC_PER_SEC;`.  Lean's `/` and `%` on `ℤ` are Euclidean,
which agrees with the C computation whenever `t.tv_nsec + dns ≥ 0`
(always the case at runtime: `clock_gettime` yields `0 ≤ tv_nsec < 10^9`
and `dns ≥ 0`). -/
def timespec_add_interval (dns : ℤ) (t : TimeSpec) : TimeSpec :=
  let nsec := t.tv_nsec + dns
  { tv_sec := t.tv_sec + nsec / NSEC_PER_SEC
    tv_nsec := nsec % NSEC_PER_SEC }

/-- The mutable state of a `Timer` instance (the private attributes of the
class that the claims are about).  `min` is `WithTop ℚ` with `⊤` standing
for the C initialiser `INFINITY`; `sdSq` is the square of `_sd`. -/
structure TimerState where
  n : ℕ
  min : WithTop ℚ
  max : ℚ
  mean : ℚ
  sdSq : ℚ
  tet : ℚ
  started : Bool
  first : Bool
  now_ts : TimeSpec
  last : ℚ
  dt : ℚ
deriving DecidableEq

/-- The state set up by the C++ member initialisers
(`_n = 0`, `_min = INFINITY`, `_max = 0`, `_mean = 0`, `_sd = 0`, `_tet = 0`,
`_started = false`, `_first = true`, `_dt = 0`; `_now_ts` and `_last` are
default/indeterminate and modelled as zero). -/
def TimerState.init : TimerState :=
  { n := 0, min := ⊤, max := 0, mean := 0, sdSq := 0, tet := 0,
    started := false, first := true, now_ts := ⟨0, 0⟩, last := 0, dt := 0 }

/-- `Timer::update_stats(double x)`: the recursive running mean / running
standard deviation update.  Mirrors the source line by line; `sdSq` tracks
the square of `_sd` (the source computes
`_sd = sqrt(n1r * (n2 * pow(_sd,2) + nn1 * pow(_mean - x, 2)))`, whose
radicand is exactly the `sdSq` recursion). -/
def Timer.update_stats (s : TimerState) (x : ℚ) : TimerState :=
  let n := s.n + 1
  if n ≤ 1 then
    { s with n := n, mean := x, tet := 0, sdSq := 0 }
  else
    let n1 : ℚ := (n : ℚ) - 1
    let n2 : ℚ := (n : ℚ) - 2
    let nr : ℚ := 1 / (n : ℚ)
    let n1r : ℚ := 1 / n1
    let nn1 : ℚ := (n : ℚ) / n1
    let mean := nr * (n1 * s.mean + x)
    { s with
      n := n
      mean := mean
      tet := nr * (n1 * s.tet + x)
      sdSq := n1r * (n2 * s.sdSq + nn1 * (mean - x) ^ 2) }

/-- `Timer::stop()`: cancels the OS interval timer and restores the default
signal disposition (pure OS effects, outside the state model), then resets
the accumulator and the lifecycle flags.  Mirrors the assignment list of the
source. -/
def Timer.stop (s : TimerState) : TimerState :=
  { s with
    n := 0
    min := ⊤
    max := 0
    mean := 0
    tet := 0
    sdSq := 0
    started := false
    first := true }

/-- `Timer::start()`: records the reference timestamp `_last = now`; in the
`absClock` build additionally reads the clock (`clock_gettime`, the argument
`clock`) and arms the first absolute deadline via `timespec_add_interval`;
in the fallback build it programs the interval timer and installs the no-op
`SIGALRM` handler (OS effects).  Finally sets `_started = true`.
`dns` is `duration_cast<nanoseconds>(_interval).count()`. -/
def Timer.start (variant : Variant) (nowQ : ℚ) (clock : TimeSpec) (dns : ℤ)
    (s : TimerState) : TimerState :=
  match variant with
  | .absClock =>
      { s with
        last := nowQ
        now_ts := timespec_add_interval dns clock
        started := true }
  | .intervalSignal =>
      { s with last := nowQ, started := true }

/-- The OS-visible events of one `wait` call: the two wall-clock snapshots
taken inside `wait`, and whether the blocking sleep was interrupted by a
signal (`clock_nanosleep(...) != 0` in the `absClock` build,
`nanosleep(...) != 0` in the fallback build). -/
structure CycleInput where
  pre_sleep : ℚ
  now : ℚ
  sleepInterrupted : Bool
deriving DecidableEq

/-- The value of the local `ret` right after the variant-specific sleep
block of `Timer::wait` (before the statistics section and before the
max-wait check): `absClock` sets `TIMER_ERR_INTERRUPTED` when
`clock_nanosleep` returned nonzero, the fallback sets
`TIMER_ERR_SIGNAL_LATE` when `nanosleep` returned zero (completed without
interruption). -/
def classifySleep (variant : Variant) (sleepInterrupted : Bool) :
    TimerErrorType :=
  match variant with
  | .absClock =>
      if sleepInterrupted then .TIMER_ERR_INTERRUPTED else .TIMER_OK
  | .intervalSignal =>
      if sleepInterrupted then .TIMER_OK else .TIMER_ERR_SIGNAL_LATE

/-- The body of `Timer::wait()` after the `_started` guard, statement by
statement.  `max_wait` is `_max_wait.count()` and `dns` the interval's
nanosecond count. -/
def Timer.waitCore (enableStats : Bool) (variant : Variant) (max_wait : ℚ)
    (dns : ℤ) (s : TimerState) (c : CycleInput) :
    TimerErrorType × TimerState :=
  let ret := classifySleep variant c.sleepInterrupted
  let s1 :=
    match variant with
    | .absClock =>
        { s with dt := 0, now_ts := timespec_add_interval dns s.now_ts }
    | .intervalSignal => { s with dt := 0 }
  let dt := c.now - s.last
  let s2 := { s1 with dt := dt }
  let s3 :=
    if enableStats then
      let sA := { s2 with tet := dt - (c.now - c.pre_sleep) }
      let sB :=
        if !sA.first then
          let sC :=
            { sA with
              min := Min.min sA.min (dt : WithTop ℚ)
              max := Max.max sA.max dt }
          if ret = .TIMER_OK then Timer.update_stats sC dt else sC
        else sA
      { sB with first := false }
    else s2
  let retF := if max_wait < dt then .TIMER_ERR_MAX_WAIT_EXCEEDED else ret
  (retF, { s3 with last := c.now })

/-- `Timer::wait()`: throws `TimerError("Timer: not started")` when the
instance is not started (this is the first statement of the method, before
any mutation), otherwise runs the body. -/
def Timer.wait (enableStats : Bool) (variant : Variant) (max_wait : ℚ)
    (dns : ℤ) (s : TimerState) (c : CycleInput) :
    Except String (TimerErrorType × TimerState) :=
  if !s.started then .error "Timer: not started"
  else .ok (Timer.waitCore enableStats variant max_wait dns s c)

/-- The state after one `wait` call (unchanged when `wait` throws). -/
def Timer.step (enableStats : Bool) (variant : Variant) (max_wait : ℚ)
    (dns : ℤ) (s : TimerState) (c : CycleInput) : TimerState :=
  match Timer.wait enableStats variant max_wait dns s c with
  | .ok (_, s') => s'
  | .error _ => s

/-- The classification returned by one `wait` call. -/
def Timer.stepRet (enableStats : Bool) (variant : Variant) (max_wait : ℚ)
    (dns : ℤ) (s : TimerState) (c : CycleInput) :
    Except String TimerErrorType :=
  (Timer.wait enableStats variant max_wait dns s c).map Prod.fst

/-- State after a whole sequence of `wait` calls. -/
def Timer.run (enableStats : Bool) (variant : Variant) (max_wait : ℚ)
    (dns : ℤ) (s : TimerState) (l : List CycleInput) : TimerState :=
  l.foldl (Timer.step enableStats variant max_wait dns) s

/-- Truncation toward zero of a rational: the value of the C++
`static_cast` to an integer count performed by `duration_cast` on a
`duration<double>` value (`Rat.den` is positive, so `Int.tdiv` of the
numerator by the denominator is exactly truncation toward zero). -/
def ratTrunc (q : ℚ) : ℤ := q.num.tdiv (q.den : ℤ)

/-- The three cases of the `if constexpr` type dispatch in
`Timer::time_to_time_struct`: `struct timeval`, `struct timespec`, or any
other type. -/
inductive TimeStructKind where
  | timeval
  | timespec
  | other
deriving DecidableEq

/-- `Timer::time_to_time_struct(T d, S &ts)`: fills a `timeval`
(`tv_sec`, `tv_usec`) or a `timespec` (`tv_sec`, `tv_nsec`) from a duration
`d` in seconds; for any other struct type it throws
`TimerError("Unsupported time struct type")`.  Source:
`ts.tv_sec = duration_cast<seconds>(d).count()` and then
`ts.tv_usec = duration_cast<microseconds>(d).count() - ts.tv_sec * 1E6`
(resp. `tv_nsec` with `1E9`); the `1E6`/`1E9` double factors are exact. -/
def time_to_time_struct (d : ℚ) (k : TimeStructKind) :
    Except String (ℤ × ℤ) :=
  let sec := ratTrunc d
  match k with
  | .timeval => .ok (sec, ratTrunc (d * 1000000) - sec * 1000000)
  | .timespec => .ok (sec, ratTrunc (d * 1000000000) - sec * 1000000000)
  | .other => .error "Unsupported time struct type"

/-- `struct itimerval`: two `timeval` pairs. -/
structure ITimerVal where
  it_interval : ℤ × ℤ
  it_value : ℤ × ℤ
deriving DecidableEq

/-- The configuration computed by the constructor: the two converted
durations (`_interval`, `_max_wait`, identity `duration_cast` for the
`duration<double>` representation) and the precomputed platform
descriptors `_rep` (interval timer periods) and `_rqtp` (max-wait
`timespec`). -/
structure TimerConfig where
  interval : ℚ
  max_wait : ℚ
  rep : ITimerVal
  rqtp : ℤ × ℤ
deriving DecidableEq

/-- `Timer::Timer(interval, max_wait)`: converts both durations and fills
`_rep.it_interval`, `_rep.it_value` (both from `_interval`, as `timeval`)
and `_rqtp` (from `_max_wait`, as `timespec`), in source order. -/
def Timer.construct (interval max_wait : ℚ) : Except String TimerConfig := do
  let iv ← time_to_time_struct interval .timeval
  let vv ← time_to_time_struct interval .timeval
  let rq ← time_to_time_struct max_wait .timespec
  return { interval := interval, max_wait := max_wait, rep := ⟨iv, vv⟩,
           rqtp := rq }

/-- Whether construction succeeds. -/
def Timer.constructOk (interval max_wait : ℚ) : Bool :=
  match Timer.construct interval max_wait with
  | .ok _ => true
  | .error _ => false

/-- Magnitude of the exact nanosecond count of a duration; the
`duration_cast<nanoseconds>` conversion overflows its 64-bit signed
representation exactly when this reaches `2 ^ 63`. -/
def nsCountMagnitude (d : ℚ) : ℕ := (ratTrunc (d * 1000000000)).natAbs

/-- The instantaneous task-execution-time of one cycle:
`dt - (now - pre_sleep)` where `dt = now - last` and `last` is the previous
wake timestamp. -/
def cycleTet (last : ℚ) (c : CycleInput) : ℚ :=
  (c.now - last) - (c.now - c.pre_sleep)

/-- One step of the recursive running-mean form of `update_stats`
(`mean' = x` for the first sample, `mean' = (1/n)((n-1)·mean + x)`
afterwards), with `n` the 0-based count of samples already folded in. -/
def recMeanStep (n : ℕ) (mean x : ℚ) : ℚ :=
  if n + 1 ≤ 1 then x else (1 / ((n : ℚ) + 1)) * ((n : ℚ) * mean + x)

/-- The running mean of a list of samples maintained by the recursive form
of `update_stats` (the behaviour the specification asserts for the reported
`tet` value, with the list of per-cycle `tet` values as samples). -/
def recMean (l : List ℚ) : ℚ :=
  (l.foldl (fun p x => (p.1 + 1, recMeanStep p.1 p.2 x)) ((0 : ℕ), (0 : ℚ))).2

/-- The statistics-update discipline of one `wait` call (state `s`, cycle
input `c`): on a first sample none of `min`/`max`/`mean`/`sd`/`n` change;
on a non-first sample `min`/`max` absorb `dt` unconditionally, while
`n`/`mean`/`sd` advance by the `update_stats` recursion exactly when the
pre-max-wait classification is `TIMER_OK`, and are untouched otherwise. -/
def statsUpdateSpec (variant : Variant) (max_wait : ℚ) (dns : ℤ)
    (s : TimerState) (c : CycleInput) : Prop :=
  let dt := c.now - s.last
  let s' := Timer.step true variant max_wait dns s c
  (s.first = true →
    s'.min = s.min ∧ s'.max = s.max ∧ s'.mean = s.mean ∧
    s'.sdSq = s.sdSq ∧ s'.n = s.n) ∧
  (s.first = false →
    s'.min = Min.min s.min (dt : WithTop ℚ) ∧ s'.max = Max.max s.max dt ∧
    (classifySleep variant c.sleepInterrupted = .TIMER_OK →
      s'.n = (Timer.update_stats s dt).n ∧
      s'.mean = (Timer.update_stats s dt).mean ∧
      s'.sdSq = (Timer.update_stats s dt).sdSq) ∧
    (classifySleep variant c.sleepInterrupted ≠ .TIMER_OK →
      s'.n = s.n ∧ s'.mean = s.mean ∧ s'.sdSq = s.sdSq))

/-- The task-execution-time value actually stored by one `wait` call: the
instantaneous `tet = dt - (now - pre_sleep)` on first or non-`TIMER_OK`
cycles; when `update_stats` runs, that instantaneous value is overwritten by
the recursion applied with `x = dt` and with the instantaneous value as the
previous accumulator (so `0` on the first accumulated sample). -/
def tetUpdateSpec (variant : Variant) (max_wait : ℚ) (dns : ℤ)
    (s : TimerState) (c : CycleInput) : Prop :=
  let dt := c.now - s.last
  let inst := dt - (c.now - c.pre_sleep)
  let s' := Timer.step true variant max_wait dns s c
  (s.first = true → s'.tet = inst) ∧
  (s.first = false → classifySleep variant c.sleepInterrupted ≠ .TIMER_OK →
    s'.tet = inst) ∧
  (s.first = false → classifySleep variant c.sleepInterrupted = .TIMER_OK →
    s'.tet = (if s.n = 0 then 0
              else (1 / ((s.n : ℚ) + 1)) * ((s.n : ℚ) * inst + dt)))

/-- Accumulator order invariant: once at least one sample has been folded
into the running statistics (`n ≥ 1`), `min ≤ mean ≤ max` (with `min` in
`WithTop ℚ`, `⊤` being `INFINITY`). -/
def StatsInv (s : TimerState) : Prop :=
  1 ≤ s.n → s.min ≤ (s.mean : WithTop ℚ) ∧ s.mean ≤ s.max

/-- A concrete started fallback-variant state (interval 250 ms), used to
instantiate the proved theorems at explicit inputs. -/
def exampleStarted : TimerState :=
  Timer.start .intervalSignal 0 ⟨0, 0⟩ 250000000 (Timer.stop TimerState.init)

lemma toNanos_timespec_add_interval (dns : ℤ) (t : TimeSpec) :
    (timespec_add_interval dns t).toNanos = t.toNanos + dns := by
  simp only [timespec_add_interval, TimeSpec.toNanos, NSEC_PER_SEC]
  omega

lemma timespec_add_interval_nsec_bounds (dns : ℤ) (t : TimeSpec) :
    0 ≤ (timespec_add_interval dns t).tv_nsec ∧
    (timespec_add_interval dns t).tv_nsec < NSEC_PER_SEC := by
  simp only [timespec_add_interval, NSEC_PER_SEC]
  omega

lemma waitCore_started (es : Bool) (v : Variant) (mw : ℚ) (dns : ℤ)
    (s : TimerState) (c : CycleInput) :
    (Timer.waitCore es v mw dns s c).2.started = s.started := by
  cases v <;>
    simp only [Timer.waitCore, Timer.update_stats] <;>
    split_ifs <;> rfl

lemma step_of_started (es : Bool) (v : Variant) (mw : ℚ) (dns : ℤ)
    (s : TimerState) (c : CycleInput) (h : s.started = true) :
    Timer.step es v mw dns s c = (Timer.waitCore es v mw dns s c).2 := by
  simp [Timer.step, Timer.wait, h]

lemma step_started (es : Bool) (v : Variant) (mw : ℚ) (dns : ℤ)
    (s : TimerState) (c : CycleInput) (h : s.started = true) :
    (Timer.step es v mw dns s c).started = true := by
  rw [step_of_started _ _ _ _ _ _ h, waitCore_started, h]

lemma waitCore_now_ts_abs (es : Bool) (mw : ℚ) (dns : ℤ)
    (s : TimerState) (c : CycleInput) :
    (Timer.waitCore es .absClock mw dns s c).2.now_ts =
      timespec_add_interval dns s.now_ts := by
  simp only [Timer.waitCore, Timer.update_stats]
  split_ifs <;> rfl

lemma run_toNanos_abs (es : Bool) (mw : ℚ) (dns : ℤ)
    (s : TimerState) (l : List CycleInput) (h : s.started = true) :
    (Timer.run es .absClock mw dns s l).now_ts.toNanos =
      s.now_ts.toNanos + l.length * dns ∧
    (Timer.run es .absClock mw dns s l).started = true := by
  induction l generalizing s with
  | nil => simpa [Timer.run] using h
  | cons c l ih =>
      have hs := step_started es .absClock mw dns s c h
      have := ih (Timer.step es .absClock mw dns s c) hs
      rw [Timer.run] at this ⊢
      simp only [List.foldl_cons] at this ⊢
      refine ⟨?_, this.2⟩
      rw [this.1, step_of_started _ _ _ _ _ _ h, waitCore_now_ts_abs,
        toNanos_timespec_add_interval, List.length_cons]
      push_cast
      ring

lemma run_nsec_bounds_abs (es : Bool) (mw : ℚ) (dns : ℤ)
    (s : TimerState) (l : List CycleInput) (h : s.started = true)
    (hb : 0 ≤ s.now_ts.tv_nsec ∧ s.now_ts.tv_nsec < NSEC_PER_SEC) :
    0 ≤ (Timer.run es .absClock mw dns s l).now_ts.tv_nsec ∧
    (Timer.run es .absClock mw dns s l).now_ts.tv_nsec < NSEC_PER_SEC := by
  induction l generalizing s with
  | nil => simpa [Timer.run] using hb
  | cons c l ih =>
      rw [Timer.run, List.foldl_cons]
      refine ih _ (step_started es .absClock mw dns s c h) ?_
      rw [step_of_started _ _ _ _ _ _ h, waitCore_now_ts_abs]
      exact timespec_add_interval_nsec_bounds _ _

lemma update_stats_n (s : TimerState) (x : ℚ) :
    (Timer.update_stats s x).n = s.n + 1 := by
  simp only [Timer.update_stats]
  split_ifs <;> rfl

lemma waitCore_first_stats (v : Variant) (mw : ℚ) (dns : ℤ)
    (s : TimerState) (c : CycleInput) :
    (Timer.waitCore true v mw dns s c).2.first = false := by
  cases v <;> simp only [Timer.waitCore, Timer.update_stats] <;>
    split_ifs <;> rfl

lemma waitCore_n_stats (v : Variant) (mw : ℚ) (dns : ℤ)
    (s : TimerState) (c : CycleInput) :
    (Timer.waitCore true v mw dns s c).2.n =
      if s.first then s.n
      else if classifySleep v c.sleepInterrupted = .TIMER_OK then s.n + 1
      else s.n := by
  cases v <;> simp only [Timer.waitCore] <;>
    split_ifs with h1 h2 <;> simp_all [update_stats_n]

lemma update_stats_min (s : TimerState) (x : ℚ) :
    (Timer.update_stats s x).min = s.min := by
  simp only [Timer.update_stats]
  split_ifs <;> rfl

lemma update_stats_max (s : TimerState) (x : ℚ) :
    (Timer.update_stats s x).max = s.max := by
  simp only [Timer.update_stats]
  split_ifs <;> rfl

lemma update_stats_mean_congr (t s : TimerState) (x : ℚ)
    (hn : t.n = s.n) (hm : t.mean = s.mean) :
    (Timer.update_stats t x).mean = (Timer.update_stats s x).mean := by
  simp only [Timer.update_stats, hn, hm]
  split_ifs <;> simp

lemma update_stats_sdSq_congr (t s : TimerState) (x : ℚ)
    (hn : t.n = s.n) (hm : t.mean = s.mean) (hs : t.sdSq = s.sdSq) :
    (Timer.update_stats t x).sdSq = (Timer.update_stats s x).sdSq := by
  simp only [Timer.update_stats, hn, hm, hs]
  split_ifs <;> simp

/-- Claim C2: with statistics enabled, for every call to `wait()`: on the
first classified sample after `start` (or after `stop`/`start`) none of
`min`, `max`, `mean`, `sd` (nor `n`) are updated; on every subsequent sample
`min` and `max` are updated with `dt` unconditionally, regardless of the
cycle's error classification; and the recursive mean/standard-deviation
update (`update_stats`) runs if and only if the cycle's classification
before the max-wait check is `TIMER_OK`. -/
theorem claim_C2 (v : Variant) (mw : ℚ) (dns : ℤ)
    (s : TimerState) (c : CycleInput) (h : s.started = true) :
    statsUpdateSpec v mw dns s c := by
  have hstep := step_of_started true v mw dns s c h
  simp only [statsUpdateSpec, hstep]
  by_cases hf : s.first = true
  · cases v <;> simp [Timer.waitCore, hf]
  · simp only [Bool.not_eq_true] at hf
    by_cases hok : classifySleep v c.sleepInterrupted = TimerErrorType.TIMER_OK
    · cases v <;>
        simp [Timer.waitCore, hf, hok, update_stats_n] <;>
        exact ⟨update_stats_min _ _, update_stats_max _ _,
          update_stats_mean_congr _ _ _ rfl rfl,
          update_stats_sdSq_congr _ _ _ rfl rfl rfl⟩
    · cases v <;> simp [Timer.waitCore, hf, hok]

lemma update_stats_tet (s : TimerState) (x : ℚ) :
    (Timer.update_stats s x).tet =
      (if s.n = 0 then 0
       else (1 / ((s.n : ℚ) + 1)) * ((s.n : ℚ) * s.tet + x)) := by
  simp only [Timer.update_stats]
  rcases Nat.eq_zero_or_pos s.n with h0 | hpos
  · simp [h0]
  · rw [if_neg (by omega), if_neg (by omega)]
    push_cast
    ring_nf

/-- Claim C3 (amended): with statistics enabled, on every cycle the
instantaneous task-execution-time estimate is `tet = dt - (now - pre_sleep)`
with `pre_sleep` snapshotted at the start of `wait()`; the reported `tet`
however is not a running mean of these values: on first or non-`TIMER_OK`
cycles the stored `tet` is the instantaneous value, and when `update_stats`
runs it applies the recursion with `x = dt` (not the cycle's tet) and with
the just-computed instantaneous tet as the previous accumulator value
(`0` on the first accumulated sample). -/
theorem claim_C3_amended (v : Variant) (mw : ℚ) (dns : ℤ)
    (s : TimerState) (c : CycleInput) (h : s.started = true) :
    tetUpdateSpec v mw dns s c := by
  have hstep := step_of_started true v mw dns s c h
  simp only [tetUpdateSpec, hstep]
  by_cases hf : s.first = true
  · cases v <;> simp [Timer.waitCore, hf]
  · simp only [Bool.not_eq_true] at hf
    by_cases hok : classifySleep v c.sleepInterrupted = TimerErrorType.TIMER_OK
    · cases v <;>
        simp [Timer.waitCore, hf, hok, update_stats_tet]
    · cases v <;> simp [Timer.waitCore, hf, hok]

lemma update_stats_dt (s : TimerState) (x : ℚ) :
    (Timer.update_stats s x).dt = s.dt := by
  simp only [Timer.update_stats]
  split_ifs <;> rfl

lemma waitCore_dt (es : Bool) (v : Variant) (mw : ℚ) (dns : ℤ)
    (s : TimerState) (c : CycleInput) :
    (Timer.waitCore es v mw dns s c).2.dt = c.now - s.last := by
  cases v <;> simp only [Timer.waitCore] <;>
    split_ifs <;> simp [update_stats_dt]

lemma waitCore_last (es : Bool) (v : Variant) (mw : ℚ) (dns : ℤ)
    (s : TimerState) (c : CycleInput) :
    (Timer.waitCore es v mw dns s c).2.last = c.now := by
  cases v <;> simp only [Timer.waitCore] <;> split_ifs <;> rfl

lemma waitCore_ret (es : Bool) (v : Variant) (mw : ℚ) (dns : ℤ)
    (s : TimerState) (c : CycleInput) :
    (Timer.waitCore es v mw dns s c).1 =
      (if mw < c.now - s.last then .TIMER_ERR_MAX_WAIT_EXCEEDED
       else classifySleep v c.sleepInterrupted) := by
  cases v <;> simp only [Timer.waitCore]

lemma stepRet_of_started (es : Bool) (v : Variant) (mw : ℚ) (dns : ℤ)
    (s : TimerState) (c : CycleInput) (h : s.started = true) :
    Timer.stepRet es v mw dns s c =
      .ok (Timer.waitCore es v mw dns s c).1 := by
  simp [Timer.stepRet, Timer.wait, h, Except.map]

lemma step_first_stats (v : Variant) (mw : ℚ) (dns : ℤ)
    (s : TimerState) (c : CycleInput) (h : s.started = true) :
    (Timer.step true v mw dns s c).first = false := by
  rw [step_of_started _ _ _ _ _ _ h]
  exact waitCore_first_stats v mw dns s c

lemma run_n_of_not_first (v : Variant) (mw : ℚ) (dns : ℤ)
    (s : TimerState) (l : List CycleInput) (h : s.started = true)
    (hf : s.first = false) :
    (Timer.run true v mw dns s l).n =
      s.n + l.countP
        (fun c => decide (classifySleep v c.sleepInterrupted = .TIMER_OK)) := by
  induction l generalizing s with
  | nil => simp [Timer.run]
  | cons c l ih =>
      rw [Timer.run, List.foldl_cons, ← Timer.run,
        ih _ (step_started true v mw dns s c h) (step_first_stats v mw dns s c h)]
      rw [step_of_started _ _ _ _ _ _ h, waitCore_n_stats, List.countP_cons]
      simp only [hf, if_false, Bool.false_eq_true]
      by_cases hok : classifySleep v c.sleepInterrupted = TimerErrorType.TIMER_OK <;>
        simp [hok] <;> omega

lemma update_stats_mean (s : TimerState) (x : ℚ) :
    (Timer.update_stats s x).mean =
      (if s.n = 0 then x
       else (1 / ((s.n : ℚ) + 1)) * ((s.n : ℚ) * s.mean + x)) := by
  simp only [Timer.update_stats]
  rcases Nat.eq_zero_or_pos s.n with h0 | hpos
  · simp [h0]
  · rw [if_neg (by omega), if_neg (by omega)]
    push_cast
    ring_nf

lemma waitCore_min_max_mean_n_first (v : Variant) (mw : ℚ) (dns : ℤ)
    (s : TimerState) (c : CycleInput) (hf : s.first = true) :
    (Timer.waitCore true v mw dns s c).2.min = s.min ∧
    (Timer.waitCore true v mw dns s c).2.max = s.max ∧
    (Timer.waitCore true v mw dns s c).2.mean = s.mean ∧
    (Timer.waitCore true v mw dns s c).2.n = s.n := by
  cases v <;> simp [Timer.waitCore, hf]

lemma waitCore_min_max_mean_n_notOk (v : Variant) (mw : ℚ) (dns : ℤ)
    (s : TimerState) (c : CycleInput) (hf : s.first = false)
    (hok : ¬ classifySleep v c.sleepInterrupted = TimerErrorType.TIMER_OK) :
    (Timer.waitCore true v mw dns s c).2.min =
      Min.min s.min ((c.now - s.last : ℚ) : WithTop ℚ) ∧
    (Timer.waitCore true v mw dns s c).2.max = Max.max s.max (c.now - s.last) ∧
    (Timer.waitCore true v mw dns s c).2.mean = s.mean ∧
    (Timer.waitCore true v mw dns s c).2.n = s.n := by
  cases v <;> simp [Timer.waitCore, hf, hok]

lemma waitCore_min_max_mean_n_ok (v : Variant) (mw : ℚ) (dns : ℤ)
    (s : TimerState) (c : CycleInput) (hf : s.first = false)
    (hok : classifySleep v c.sleepInterrupted = TimerErrorType.TIMER_OK) :
    (Timer.waitCore true v mw dns s c).2.min =
      Min.min s.min ((c.now - s.last : ℚ) : WithTop ℚ) ∧
    (Timer.waitCore true v mw dns s c).2.max = Max.max s.max (c.now - s.last) ∧
    (Timer.waitCore true v mw dns s c).2.mean =
      (if s.n = 0 then c.now - s.last
       else (1 / ((s.n : ℚ) + 1)) * ((s.n : ℚ) * s.mean + (c.now - s.last))) ∧
    (Timer.waitCore true v mw dns s c).2.n = s.n + 1 := by
  cases v <;>
    simp [Timer.waitCore, hf, hok, update_stats_n, update_stats_min,
      update_stats_max, update_stats_mean, one_div]

lemma statsInv_step (v : Variant) (mw : ℚ) (dns : ℤ)
    (s : TimerState) (c : CycleInput) (hinv : StatsInv s) :
    StatsInv (Timer.step true v mw dns s c) := by
  by_cases h : s.started = true
  · rw [step_of_started _ _ _ _ _ _ h]
    by_cases hf : s.first = true
    · intro hn
      obtain ⟨h1, h2, h3, h4⟩ := waitCore_min_max_mean_n_first v mw dns s c hf
      rw [h1, h2, h3]
      exact hinv (h4 ▸ hn)
    · simp only [Bool.not_eq_true] at hf
      by_cases hok : classifySleep v c.sleepInterrupted = TimerErrorType.TIMER_OK
      · intro _
        obtain ⟨h1, h2, h3, h4⟩ := waitCore_min_max_mean_n_ok v mw dns s c hf hok
        rw [h1, h2, h3]
        set dt := c.now - s.last with hdt
        rcases Nat.eq_zero_or_pos s.n with h0 | hpos
        · rw [if_pos h0]
          exact ⟨min_le_right _ _, le_max_right _ _⟩
        · rw [if_neg (by omega)]
          obtain ⟨hminle, hmeanle⟩ := hinv hpos
          have hne : s.min ≠ ⊤ := ne_top_of_le_ne_top (WithTop.coe_ne_top) hminle
          lift s.min to ℚ using hne with m hm
          rw [WithTop.coe_le_coe] at hminle
          have hk : (1 : ℚ) ≤ (s.n : ℚ) := by exact_mod_cast hpos
          have hk1 : (0 : ℚ) < (s.n : ℚ) + 1 := by linarith
          constructor
          · rw [← WithTop.coe_min, WithTop.coe_le_coe]
            have h5 : Min.min m dt ≤ s.mean := le_trans (min_le_left _ _) hminle
            have h6 : Min.min m dt ≤ dt := min_le_right _ _
            rw [one_div, inv_mul_eq_div, le_div_iff hk1]
            nlinarith
          · have h5 : s.mean ≤ Max.max s.max dt := le_trans hmeanle (le_max_left _ _)
            have h6 : dt ≤ Max.max s.max dt := le_max_right _ _
            rw [one_div, inv_mul_eq_div, div_le_iff hk1]
            nlinarith
      · intro hn
        obtain ⟨h1, h2, h3, h4⟩ := waitCore_min_max_mean_n_notOk v mw dns s c hf hok
        rw [h1, h2, h3]
        obtain ⟨hminle, hmeanle⟩ := hinv (h4 ▸ hn)
        exact ⟨le_trans (min_le_left _ _) hminle,
          le_trans hmeanle (le_max_left _ _)⟩
  · simp only [Bool.not_eq_true] at h
    have : Timer.step true v mw dns s c = s := by
      simp [Timer.step, Timer.wait, h]
    rw [this]
    exact hinv

lemma statsInv_run (v : Variant) (mw : ℚ) (dns : ℤ)
    (s : TimerState) (l : List CycleInput) (hinv : StatsInv s) :
    StatsInv (Timer.run true v mw dns s l) := by
  induction l generalizing s with
  | nil => exact hinv
  | cons c l ih =>
      rw [Timer.run, List.foldl_cons, ← Timer.run]
      exact ih _ (statsInv_step v mw dns s c hinv)

/-- Claim C1: in absolute-clock mode, immediately after every wake inside
`wait()` the armed deadline `_now_ts` is advanced by exactly one interval
(`next_wake += interval`, never recomputed from `now`): after `start()`
followed by `N` calls to `wait()` the armed deadline equals the deadline
captured at start plus `N` times the interval, in exact integer nanosecond
arithmetic, with the `timespec` normalised to `0 ≤ tv_nsec < 10^9`.
The hypotheses `0 ≤ dns` and `0 ≤ clock.tv_nsec` delimit the regime in
which the embedded Euclidean `/`, `%` agree with the C `long` division. -/
theorem claim_C1 (dns : ℤ) (clock : TimeSpec) (nowQ : ℚ) (s₀ : TimerState)
    (es : Bool) (mw : ℚ) (l : List CycleInput)
    (hdns : 0 ≤ dns) (hnsec : 0 ≤ clock.tv_nsec) :
    (Timer.run es .absClock mw dns
        (Timer.start .absClock nowQ clock dns s₀) l).now_ts.toNanos =
      (Timer.start .absClock nowQ clock dns s₀).now_ts.toNanos +
        l.length * dns ∧
    0 ≤ (Timer.run es .absClock mw dns
        (Timer.start .absClock nowQ clock dns s₀) l).now_ts.tv_nsec ∧
    (Timer.run es .absClock mw dns
        (Timer.start .absClock nowQ clock dns s₀) l).now_ts.tv_nsec <
      NSEC_PER_SEC := by
  have hstart : (Timer.start .absClock nowQ clock dns s₀).started = true := by
    simp [Timer.start]
  have hns : (Timer.start .absClock nowQ clock dns s₀).now_ts =
      timespec_add_interval dns clock := by
    simp [Timer.start]
  have h1 := run_toNanos_abs es mw dns _ l hstart
  have h2 := run_nsec_bounds_abs es mw dns _ l hstart
    (by rw [hns]; exact timespec_add_interval_nsec_bounds dns clock)
  exact ⟨h1.1, h2⟩

/-- Concrete instantiation of `claim_C1` (interval 1.5 s, clock at
3.999999999 s, two `wait` calls). -/
theorem claim_C1_witness :
    (0 ≤ (1500000000 : ℤ)) ∧ (0 ≤ (TimeSpec.mk 3 999999999).tv_nsec) ∧
    ((Timer.run true .absClock 1 1500000000
        (Timer.start .absClock 0 ⟨3, 999999999⟩ 1500000000 TimerState.init)
        [⟨0, 0, false⟩, ⟨0, 0, true⟩]).now_ts.toNanos =
      (Timer.start .absClock 0 ⟨3, 999999999⟩ 1500000000
          TimerState.init).now_ts.toNanos +
        ([(⟨0, 0, false⟩ : CycleInput), ⟨0, 0, true⟩] : List CycleInput).length *
          1500000000 ∧
    0 ≤ (Timer.run true .absClock 1 1500000000
        (Timer.start .absClock 0 ⟨3, 999999999⟩ 1500000000 TimerState.init)
        [⟨0, 0, false⟩, ⟨0, 0, true⟩]).now_ts.tv_nsec ∧
    (Timer.run true .absClock 1 1500000000
        (Timer.start .absClock 0 ⟨3, 999999999⟩ 1500000000 TimerState.init)
        [⟨0, 0, false⟩, ⟨0, 0, true⟩]).now_ts.tv_nsec < NSEC_PER_SEC) :=
  ⟨by decide, by decide,
    claim_C1 1500000000 ⟨3, 999999999⟩ 0 TimerState.init true 1
      [⟨0, 0, false⟩, ⟨0, 0, true⟩] (by decide) (by decide)⟩

/-- Claim C4: in both wake-up variants, after waking, `wait()` computes
`dt = now - last_wake`, sets `last_wake = now`, and returns
`TIMER_ERR_MAX_WAIT_EXCEEDED` whenever `dt > max_wait`, regardless of which
sub-classification (`SignalLate` or `Interrupted`) already applied. -/
theorem claim_C4 (es : Bool) (v : Variant) (mw : ℚ) (dns : ℤ)
    (s : TimerState) (c : CycleInput) (h : s.started = true) :
    (Timer.step es v mw dns s c).dt = c.now - s.last ∧
    (Timer.step es v mw dns s c).last = c.now ∧
    (mw < (Timer.step es v mw dns s c).dt →
      Timer.stepRet es v mw dns s c =
        .ok TimerErrorType.TIMER_ERR_MAX_WAIT_EXCEEDED) := by
  rw [step_of_started _ _ _ _ _ _ h, stepRet_of_started _ _ _ _ _ _ h]
  refine ⟨waitCore_dt es v mw dns s c, waitCore_last es v mw dns s c, ?_⟩
  rw [waitCore_dt, waitCore_ret]
  intro hlt
  rw [if_pos hlt]

/-- Concrete instantiation of `claim_C4` at a started state with
`dt = 10 > max_wait = 5`. -/
theorem claim_C4_witness :
    exampleStarted.started = true ∧
    ((Timer.step true .absClock 5 0 exampleStarted ⟨0, 10, true⟩).dt =
        (⟨0, 10, true⟩ : CycleInput).now - exampleStarted.last ∧
      (Timer.step true .absClock 5 0 exampleStarted ⟨0, 10, true⟩).last =
        (⟨0, 10, true⟩ : CycleInput).now ∧
      ((5 : ℚ) < (Timer.step true .absClock 5 0 exampleStarted ⟨0, 10, true⟩).dt →
        Timer.stepRet true .absClock 5 0 exampleStarted ⟨0, 10, true⟩ =
          .ok TimerErrorType.TIMER_ERR_MAX_WAIT_EXCEEDED)) :=
  ⟨rfl, claim_C4 true .absClock 5 0 exampleStarted ⟨0, 10, true⟩ rfl⟩

/-- Claim C6 (amended): in the interval-signal fallback variant, if the
blocking sleep completes without interruption the call returns
`TIMER_ERR_SIGNAL_LATE` unless the max-wait check then overrides the result
(`dt > max_wait` returns `TIMER_ERR_MAX_WAIT_EXCEEDED` instead); if the
sleep is interrupted by the periodic signal the call never returns
`TIMER_ERR_SIGNAL_LATE`. -/
theorem claim_C6_amended (es : Bool) (mw : ℚ) (dns : ℤ)
    (s : TimerState) (c : CycleInput) (h : s.started = true) :
    (c.sleepInterrupted = false →
      (c.now - s.last ≤ mw →
        Timer.stepRet es .intervalSignal mw dns s c =
          .ok TimerErrorType.TIMER_ERR_SIGNAL_LATE) ∧
      (mw < c.now - s.last →
        Timer.stepRet es .intervalSignal mw dns s c =
          .ok TimerErrorType.TIMER_ERR_MAX_WAIT_EXCEEDED)) ∧
    (c.sleepInterrupted = true →
      Timer.stepRet es .intervalSignal mw dns s c ≠
        .ok TimerErrorType.TIMER_ERR_SIGNAL_LATE) := by
  rw [stepRet_of_started _ _ _ _ _ _ h, waitCore_ret]
  constructor
  · intro hsi
    refine ⟨fun hle => ?_, fun hlt => ?_⟩
    · rw [if_neg (not_lt.mpr hle)]
      simp [classifySleep, hsi]
    · rw [if_pos hlt]
  · intro hsi
    split_ifs <;> simp [classifySleep, hsi]

/-- Concrete instantiation of `claim_C6_amended` at a started state. -/
theorem claim_C6_amended_witness :
    exampleStarted.started = true ∧
    (((⟨0, 10, true⟩ : CycleInput).sleepInterrupted = false →
      ((⟨0, 10, true⟩ : CycleInput).now - exampleStarted.last ≤ (100 : ℚ) →
        Timer.stepRet true .intervalSignal 100 0 exampleStarted ⟨0, 10, true⟩ =
          .ok TimerErrorType.TIMER_ERR_SIGNAL_LATE) ∧
      ((100 : ℚ) < (⟨0, 10, true⟩ : CycleInput).now - exampleStarted.last →
        Timer.stepRet true .intervalSignal 100 0 exampleStarted ⟨0, 10, true⟩ =
          .ok TimerErrorType.TIMER_ERR_MAX_WAIT_EXCEEDED)) ∧
    ((⟨0, 10, true⟩ : CycleInput).sleepInterrupted = true →
      Timer.stepRet true .intervalSignal 100 0 exampleStarted ⟨0, 10, true⟩ ≠
        .ok TimerErrorType.TIMER_ERR_SIGNAL_LATE)) :=
  ⟨rfl, claim_C6_amended true 100 0 exampleStarted ⟨0, 10, true⟩ rfl⟩

/-- Claim C7: `stop()` never fails (it is a total function on every state,
started or not), resets the statistics accumulator to its initial values
(`n = 0`, `min = INFINITY` i.e. `⊤`, `max = 0`, `mean = 0`, `sd = 0` i.e.
`sdSq = 0`, `tet = 0`), marks the instance not started, and is idempotent:
two consecutive `stop()` calls leave the same state as one. -/
theorem claim_C7 (s : TimerState) :
    Timer.stop (Timer.stop s) = Timer.stop s ∧
    (Timer.stop s).n = 0 ∧ (Timer.stop s).min = ⊤ ∧
    (Timer.stop s).max = 0 ∧ (Timer.stop s).mean = 0 ∧
    (Timer.stop s).sdSq = 0 ∧ (Timer.stop s).tet = 0 ∧
    (Timer.stop s).started = false := by
  simp [Timer.stop]

/-- Claim C8: calling `wait()` on a non-started instance (before any
`start()`, or after `stop()`) throws the configuration error
`"Timer: not started"` and leaves the state unchanged (the throw is the
first statement of `wait`, before any mutation). -/
theorem claim_C8 (es : Bool) (v : Variant) (mw : ℚ) (dns : ℤ)
    (s : TimerState) (c : CycleInput) (h : s.started = false) :
    Timer.wait es v mw dns s c = Except.error "Timer: not started" ∧
    Timer.step es v mw dns s c = s := by
  simp [Timer.wait, Timer.step, h]

/-- Concrete instantiation of `claim_C8` on the freshly constructed
(never started) state. -/
theorem claim_C8_witness :
    TimerState.init.started = false ∧
    (Timer.wait true .intervalSignal 1 0 TimerState.init ⟨0, 1, true⟩ =
        Except.error "Timer: not started" ∧
      Timer.step true .intervalSignal 1 0 TimerState.init ⟨0, 1, true⟩ =
        TimerState.init) :=
  ⟨rfl, claim_C8 true .intervalSignal 1 0 TimerState.init ⟨0, 1, true⟩ rfl⟩

/-- Claim C10: with statistics enabled, after any sequence of `wait`
cycles since the last `stop`/`start`, the sample count `n` (the value
reported as `stats()["n"]`) equals the number of non-first cycles whose
classification before the max-wait check is `TIMER_OK` — hence it can be
strictly smaller than the number of `wait()` calls (it never counts the
first cycle). -/
theorem claim_C10 (v : Variant) (mw nowQ : ℚ) (dns : ℤ) (clock : TimeSpec)
    (s₀ : TimerState) (l : List CycleInput) :
    (Timer.run true v mw dns
        (Timer.start v nowQ clock dns (Timer.stop s₀)) l).n =
      (l.drop 1).countP
        (fun c => decide (classifySleep v c.sleepInterrupted =
          TimerErrorType.TIMER_OK)) := by
  have hstart : (Timer.start v nowQ clock dns (Timer.stop s₀)).started = true := by
    cases v <;> simp [Timer.start]
  have hn0 : (Timer.start v nowQ clock dns (Timer.stop s₀)).n = 0 := by
    cases v <;> simp [Timer.start, Timer.stop]
  have hf : (Timer.start v nowQ clock dns (Timer.stop s₀)).first = true := by
    cases v <;> simp [Timer.start, Timer.stop]
  cases l with
  | nil => simpa [Timer.run] using hn0
  | cons c l =>
      rw [Timer.run, List.foldl_cons, ← Timer.run, List.drop_succ_cons,
        List.drop_zero]
      rw [run_n_of_not_first v mw dns _ l
        (step_started true v mw dns _ c hstart)
        (step_first_stats v mw dns _ c hstart)]
      rw [step_of_started _ _ _ _ _ _ hstart, waitCore_n_stats, hf]
      simp [hn0]

/-- Claim C5: with statistics enabled, after at least one sample has been
folded into the accumulator (`stats()["n"] ≥ 1`, which covers the spec's
warm-up condition `n ≥ 2`), the accumulator satisfies `min ≤ mean ≤ max`,
for every sequence of `wait()` cycles since `stop`/`start` with arbitrary
error classifications. -/
theorem claim_C5 (v : Variant) (mw nowQ : ℚ) (dns : ℤ) (clock : TimeSpec)
    (s₀ : TimerState) (l : List CycleInput)
    (h1 : 1 ≤ (Timer.run true v mw dns
        (Timer.start v nowQ clock dns (Timer.stop s₀)) l).n) :
    (Timer.run true v mw dns
        (Timer.start v nowQ clock dns (Timer.stop s₀)) l).min ≤
      ((Timer.run true v mw dns
        (Timer.start v nowQ clock dns (Timer.stop s₀)) l).mean : WithTop ℚ) ∧
    (Timer.run true v mw dns
        (Timer.start v nowQ clock dns (Timer.stop s₀)) l).mean ≤
      (Timer.run true v mw dns
        (Timer.start v nowQ clock dns (Timer.stop s₀)) l).max := by
  refine statsInv_run v mw dns _ l ?_ h1
  intro hn
  exfalso
  have h0 : (Timer.start v nowQ clock dns (Timer.stop s₀)).n = 0 := by
    cases v <;> simp [Timer.start, Timer.stop]
  omega

/-- Concrete instantiation of `claim_C5`: two cycles, the second
accumulated (`n = 1`). -/
theorem claim_C5_witness :
    1 ≤ (Timer.run true .intervalSignal 100 0
        (Timer.start .intervalSignal 0 ⟨0, 0⟩ 0 (Timer.stop TimerState.init))
        [⟨0, 10, true⟩, ⟨10, 20, true⟩]).n ∧
    ((Timer.run true .intervalSignal 100 0
        (Timer.start .intervalSignal 0 ⟨0, 0⟩ 0 (Timer.stop TimerState.init))
        [⟨0, 10, true⟩, ⟨10, 20, true⟩]).min ≤
      ((Timer.run true .intervalSignal 100 0
        (Timer.start .intervalSignal 0 ⟨0, 0⟩ 0 (Timer.stop TimerState.init))
        [⟨0, 10, true⟩, ⟨10, 20, true⟩]).mean : WithTop ℚ) ∧
    (Timer.run true .intervalSignal 100 0
        (Timer.start .intervalSignal 0 ⟨0, 0⟩ 0 (Timer.stop TimerState.init))
        [⟨0, 10, true⟩, ⟨10, 20, true⟩]).mean ≤
      (Timer.run true .intervalSignal 100 0
        (Timer.start .intervalSignal 0 ⟨0, 0⟩ 0 (Timer.stop TimerState.init))
        [⟨0, 10, true⟩, ⟨10, 20, true⟩]).max) :=
  ⟨by decide, claim_C5 .intervalSignal 100 0 0 ⟨0, 0⟩ TimerState.init
    [⟨0, 10, true⟩, ⟨10, 20, true⟩] (by decide)⟩

/-- Concrete instantiation of `claim_C2` at a warm started state
(`n = 1`, `first = false`) with an interrupted (hence `TIMER_OK`) cycle. -/
theorem claim_C2_witness :
    ((⟨1, ((5 : ℚ) : WithTop ℚ), 5, 5, 0, 0, true, false, ⟨0, 0⟩, 0, 0⟩ :
      TimerState).started = true) ∧
    statsUpdateSpec .intervalSignal 100 0
      ⟨1, ((5 : ℚ) : WithTop ℚ), 5, 5, 0, 0, true, false, ⟨0, 0⟩, 0, 0⟩
      ⟨3, 10, true⟩ :=
  ⟨rfl, claim_C2 .intervalSignal 100 0
    ⟨1, ((5 : ℚ) : WithTop ℚ), 5, 5, 0, 0, true, false, ⟨0, 0⟩, 0, 0⟩
    ⟨3, 10, true⟩ rfl⟩

/-- Concrete instantiation of `claim_C3_amended` at a warm started
state. -/
theorem claim_C3_amended_witness :
    ((⟨1, ((5 : ℚ) : WithTop ℚ), 5, 5, 0, 0, true, false, ⟨0, 0⟩, 0, 0⟩ :
      TimerState).started = true) ∧
    tetUpdateSpec .intervalSignal 100 0
      ⟨1, ((5 : ℚ) : WithTop ℚ), 5, 5, 0, 0, true, false, ⟨0, 0⟩, 0, 0⟩
      ⟨3, 10, true⟩ :=
  ⟨rfl, claim_C3_amended .intervalSignal 100 0
    ⟨1, ((5 : ℚ) : WithTop ℚ), 5, 5, 0, 0, true, false, ⟨0, 0⟩, 0, 0⟩
    ⟨3, 10, true⟩ rfl⟩

/-- Claim C3 counterexample: a started timer, two cycles
(`last = 0`; cycle 1: `pre_sleep = 0`, `now = 10`; cycle 2:
`pre_sleep = 13`, `now = 20`, both `TIMER_OK`).  The per-cycle tet values
are `0` and `3`, so a running mean of per-cycle tets maintained by the
recursion would report `3` (mean of the single accumulated sample) — or
`3/2` if averaged over both cycles — but the code reports `tet = 0`:
`update_stats` overwrote the instantaneous tet via its base case. -/
theorem claim_C3_counterexample :
    (Timer.run true .intervalSignal 100 0
        (Timer.start .intervalSignal 0 ⟨0, 0⟩ 0 (Timer.stop TimerState.init))
        [⟨0, 10, true⟩, ⟨13, 20, true⟩]).tet = 0 ∧
    cycleTet 0 ⟨0, 10, true⟩ = 0 ∧
    cycleTet 10 ⟨13, 20, true⟩ = 3 ∧
    recMean [cycleTet 10 ⟨13, 20, true⟩] = 3 ∧
    recMean [cycleTet 0 ⟨0, 10, true⟩, cycleTet 10 ⟨13, 20, true⟩] = 3 / 2 := by
  refine ⟨?_, by norm_num [cycleTet], by norm_num [cycleTet], ?_, ?_⟩
  · norm_num [Timer.run, Timer.step, Timer.wait, Timer.waitCore, classifySleep,
      Timer.update_stats, Timer.start, Timer.stop, TimerState.init]
  · norm_num [recMean, recMeanStep, cycleTet]
  · norm_num [recMean, recMeanStep, cycleTet]

/-- Claim C6 counterexample: fallback variant, blocking sleep completes
without interruption (`sleepInterrupted = false`) but `dt = 10` exceeds
`max_wait = 5`: the call does not return `TIMER_ERR_SIGNAL_LATE` — the
max-wait check overrides the classification to
`TIMER_ERR_MAX_WAIT_EXCEEDED`. -/
theorem claim_C6_counterexample :
    Timer.stepRet true .intervalSignal 5 0 exampleStarted ⟨0, 10, false⟩ ≠
      Except.ok TimerErrorType.TIMER_ERR_SIGNAL_LATE ∧
    Timer.stepRet true .intervalSignal 5 0 exampleStarted ⟨0, 10, false⟩ =
      Except.ok TimerErrorType.TIMER_ERR_MAX_WAIT_EXCEEDED := by
  have h : Timer.stepRet true .intervalSignal 5 0 exampleStarted ⟨0, 10, false⟩ =
      Except.ok TimerErrorType.TIMER_ERR_MAX_WAIT_EXCEEDED := by
    norm_num [Timer.stepRet, Timer.wait, Timer.waitCore, classifySleep,
      exampleStarted, Timer.start, Timer.stop, TimerState.init, Except.map]
  refine ⟨?_, h⟩
  rw [h]
  simp

/-- Claim C9 (amended): construction converts both durations into the
internal representation and precomputes the platform descriptors
(`_rep.it_interval` and `_rep.it_value` from the interval as `timeval`,
`_rqtp` from the max-wait as `timespec`) — and it never fails: the
constructor performs no overflow or precision check (the only error path of
`time_to_time_struct` is the unsupported-struct-kind branch, which the
constructor never reaches). -/
theorem claim_C9_amended (interval max_wait : ℚ) :
    Timer.construct interval max_wait =
      Except.ok
        { interval := interval
          max_wait := max_wait
          rep :=
            ⟨(ratTrunc interval,
                ratTrunc (interval * 1000000) - ratTrunc interval * 1000000),
              (ratTrunc interval,
                ratTrunc (interval * 1000000) - ratTrunc interval * 1000000)⟩
          rqtp :=
            (ratTrunc max_wait,
              ratTrunc (max_wait * 1000000000) -
                ratTrunc max_wait * 1000000000) } := rfl

/-- Claim C9 counterexample: an interval of `2^80` seconds makes the
nanosecond count of the conversion overflow a signed 64-bit representation
(`nsCountMagnitude ≥ 2^63`), yet construction still succeeds instead of
failing with a configuration error. -/
theorem claim_C9_counterexample :
    2 ^ 63 ≤ nsCountMagnitude ((2 : ℚ) ^ 80) ∧
    Timer.constructOk ((2 : ℚ) ^ 80) 1 = true := by
  constructor
  · have h : ((2 : ℚ) ^ 80 * 1000000000) = (((2 : ℤ) ^ 80 * 1000000000 : ℤ) : ℚ) := by
      push_cast
      ring
    rw [nsCountMagnitude, ratTrunc, h, Rat.num_intCast, Rat.den_intCast]
    norm_num [Int.tdiv]
  · rfl
